import Mathlib

/-!
# Verification of the dinorun3d OBJ loader (`src/ObjLoader.cpp`, `include/ObjLoader.hpp`)

A shallow embedding of the geometry-ingestion subsystem: `ObjLoader::load`
(line-oriented parsing of `v` / `vt` / `vn` / `f` / `mtllib` directives, with the
material-library scan for `map_Kd`) and `ObjLoader::getTriangles` (mesh assembly).

Modelling conventions:

* C++ `std::istringstream` extraction is modelled at the character level by
  `Dino.SStream`.  A formatted extraction (`operator>>`) first runs the sentry:
  on an already-failed stream, or when only whitespace remains, the sentry fails
  and the target variable is *not* written; otherwise `num_get` parses the
  longest numeric prefix, writing the value on success and writing `0` (and
  setting the fail state) on a conversion failure.  The value written to the
  target is returned as an `Option` (`none` = target left untouched).
* Uninitialised C++ variables (the index arrays of a stack-allocated `Face`,
  the unset fields of a `Vertex`) hold indeterminate values; they are modelled
  as `Option` fields initialised to `none`.  Arithmetic on an indeterminate
  value (the `--face.textureIndices[i]` decrements) keeps it indeterminate.
* Floats are modelled as `ℚ`; the numeric grammar covers plain decimal
  literals with optional sign and fractional part, which is the fragment the
  inputs under consideration exercise.
* The file system is a map from path to the list of lines `std::getline`
  yields (`Dino.FS`); a path not in the map is a file that fails to open.
* The process-global `std::string gTextureName` is threaded explicitly
  through `load` and the constructor.
* `vector::operator[]` with an out-of-range (or indeterminate) index is
  undefined behaviour; the embedding partialises it to `Option` (`Dino.vecAt`),
  so `getTriangles` returns `none` exactly when the C++ code performs an
  out-of-bounds or indeterminate pool access.
-/

namespace Dino

/-- Whitespace for the default classic locale used by stream extraction. -/
def wsChar (c : Char) : Bool :=
  c = ' ' || c = '\t' || c = '\r' || c = '\n' || c.toNat = 11 || c.toNat = 12

/-- Drop leading whitespace, as the sentry of a formatted extraction does. -/
def skipWsL (cs : List Char) : List Char :=
  cs.dropWhile (fun c => wsChar c)

/-- Character stream with a fail state: the model of `std::istringstream`. -/
structure SStream where
  chars : List Char
  failed : Bool
deriving DecidableEq, Repr

/-- `istream::peek`: the next character, or `none` (eof) at end of stream or on
a failed stream. -/
def SStream.peek (s : SStream) : Option Char :=
  if s.failed then none else s.chars.head?

/-- `istream::get()` used to consume one character (only called after `peek`
saw a slash). -/
def SStream.getc (s : SStream) : SStream :=
  if s.failed then s else { s with chars := s.chars.tail }

/-- Value of a run of decimal digits. -/
def parseNatDigits (ds : List Char) : Nat :=
  ds.foldl (fun a c => a * 10 + (c.toNat - 48)) 0

/-- `num_get` integer grammar (decimal, optional sign): the parsed value and
the rest of the stream, or `none` when no integer can be formed. -/
def parseIntToken (cs : List Char) : Option (Int × List Char) :=
  match cs with
  | '-' :: rest =>
    let ds := rest.takeWhile Char.isDigit
    if ds.isEmpty then none
    else some (-(parseNatDigits ds : Int), rest.dropWhile Char.isDigit)
  | '+' :: rest =>
    let ds := rest.takeWhile Char.isDigit
    if ds.isEmpty then none
    else some ((parseNatDigits ds : Int), rest.dropWhile Char.isDigit)
  | _ =>
    let ds := cs.takeWhile Char.isDigit
    if ds.isEmpty then none
    else some ((parseNatDigits ds : Int), cs.dropWhile Char.isDigit)

/-- Unsigned part of the `num_get` float grammar: digits with an optional
fractional part (at least one digit overall). -/
def parseUnsignedRat (cs : List Char) : Option (ℚ × List Char) :=
  let intDs := cs.takeWhile Char.isDigit
  let rest1 := cs.dropWhile Char.isDigit
  match rest1 with
  | '.' :: rest2 =>
    let fracDs := rest2.takeWhile Char.isDigit
    let rest3 := rest2.dropWhile Char.isDigit
    if intDs.isEmpty && fracDs.isEmpty then none
    else some ((parseNatDigits intDs : ℚ)
                 + (parseNatDigits fracDs : ℚ) / (10 : ℚ) ^ fracDs.length, rest3)
  | _ =>
    if intDs.isEmpty then none
    else some ((parseNatDigits intDs : ℚ), rest1)

/-- `num_get` float grammar with optional sign. -/
def parseRatToken (cs : List Char) : Option (ℚ × List Char) :=
  match cs with
  | '-' :: rest => (parseUnsignedRat rest).map (fun p => (-p.1, p.2))
  | '+' :: rest => parseUnsignedRat rest
  | _ => parseUnsignedRat cs

/-- `operator>>(int&)`.  Sentry failure (stream failed, or nothing but
whitespace left) leaves the target untouched (`none`); a conversion failure
writes `0` and sets the fail state. -/
def extractInt (s : SStream) : Option Int × SStream :=
  if s.failed then (none, s)
  else
    match skipWsL s.chars with
    | [] => (none, { chars := [], failed := true })
    | c :: cs =>
      match parseIntToken (c :: cs) with
      | some (v, rest) => (some v, { chars := rest, failed := false })
      | none => (some 0, { chars := c :: cs, failed := true })

/-- `operator>>(float&)`, with values carried as `ℚ`. -/
def extractRat (s : SStream) : Option ℚ × SStream :=
  if s.failed then (none, s)
  else
    match skipWsL s.chars with
    | [] => (none, { chars := [], failed := true })
    | c :: cs =>
      match parseRatToken (c :: cs) with
      | some (v, rest) => (some v, { chars := rest, failed := false })
      | none => (some 0, { chars := c :: cs, failed := true })

/-- `operator>>(std::string&)`: skip whitespace, then the maximal run of
non-whitespace characters.  Sentry failure leaves the target untouched. -/
def extractString (s : SStream) : Option String × SStream :=
  if s.failed then (none, s)
  else
    match skipWsL s.chars with
    | [] => (none, { chars := [], failed := true })
    | c :: cs =>
      (some (String.mk ((c :: cs).takeWhile (fun d => !wsChar d))),
       { chars := (c :: cs).dropWhile (fun d => !wsChar d), failed := false })

/-- `Vertex` (ObjLoader.hpp): nine floats; the parser writes only `x`, `y`,
`z`, the rest stay indeterminate (`none`). -/
structure Vertex where
  x : Option ℚ
  y : Option ℚ
  z : Option ℚ
  r : Option ℚ
  g : Option ℚ
  b : Option ℚ
  nx : Option ℚ
  ny : Option ℚ
  nz : Option ℚ
deriving DecidableEq, Repr

/-- `TextureCoords` (ObjLoader.hpp). -/
structure TextureCoords where
  u : Option ℚ
  v : Option ℚ
deriving DecidableEq, Repr

/-- `Normal` (ObjLoader.hpp). -/
structure Normal where
  nx : Option ℚ
  ny : Option ℚ
  nz : Option ℚ
deriving DecidableEq, Repr

/-- `Face` (ObjLoader.hpp): three `int[3]` arrays.  A slot the parser never
writes holds an indeterminate value, modelled `none`. -/
structure Face where
  vertexIndices : Option Int × Option Int × Option Int
  textureIndices : Option Int × Option Int × Option Int
  normalIndices : Option Int × Option Int × Option Int
deriving DecidableEq, Repr

/-- `Triangle` (ObjLoader.hpp): three resolved vertices / normals / texture
coordinates, in corner order. -/
structure Triangle where
  vertices : Vertex × Vertex × Vertex
  normals : Normal × Normal × Normal
  textures : TextureCoords × TextureCoords × TextureCoords
deriving DecidableEq, Repr

/-- One iteration of the corner loop in the `f` branch of `ObjLoader::load`:
`iss >> vertexIndices[i]`, then the peek/get slash handling for the optional
texture and normal indices, then the three `--` decrements (a decrement of a
never-written slot keeps it indeterminate). -/
def faceCorner (s : SStream) : (Option Int × Option Int × Option Int) × SStream :=
  let rv := extractInt s
  let s1 := rv.2
  if s1.peek = some '/' then
    let s2 := s1.getc
    let rt : Option Int × SStream :=
      if s2.peek = some '/' then (none, s2) else extractInt s2
    let s3 := rt.2
    let rn : Option Int × SStream :=
      if s3.peek = some '/' then extractInt (s3.getc) else (none, s3)
    ((rv.1.map (· - 1), rt.1.map (· - 1), rn.1.map (· - 1)), rn.2)
  else
    ((rv.1.map (· - 1), none, none), s1)

/-- The `f` branch: three corner iterations filling the `Face` arrays. -/
def parseFaceLine (s : SStream) : Face :=
  let c0 := faceCorner s
  let c1 := faceCorner c0.2
  let c2 := faceCorner c1.2
  { vertexIndices := (c0.1.1, c1.1.1, c2.1.1),
    textureIndices := (c0.1.2.1, c1.1.2.1, c2.1.2.1),
    normalIndices := (c0.1.2.2, c1.1.2.2, c2.1.2.2) }

/-- The `v` branch: `iss >> vertex.x >> vertex.y >> vertex.z` on a
stack-allocated `Vertex` (remaining fields indeterminate). -/
def parseVertexLine (s : SStream) : Vertex :=
  let r1 := extractRat s
  let r2 := extractRat r1.2
  let r3 := extractRat r2.2
  { x := r1.1, y := r2.1, z := r3.1,
    r := none, g := none, b := none, nx := none, ny := none, nz := none }

/-- The `vt` branch: `iss >> texture.u >> texture.v`. -/
def parseVtLine (s : SStream) : TextureCoords :=
  let r1 := extractRat s
  let r2 := extractRat r1.2
  { u := r1.1, v := r2.1 }

/-- The `vn` branch: `iss >> normal.nx >> normal.ny >> normal.nz`. -/
def parseVnLine (s : SStream) : Normal :=
  let r1 := extractRat s
  let r2 := extractRat r1.2
  let r3 := extractRat r2.2
  { nx := r1.1, ny := r2.1, nz := r3.1 }

/-- File system model: path ↦ lines of the file, `none` when opening fails. -/
abbrev FS : Type := String → Option (List String)

/-- `filename.substr(0, filename.find_last_of('/'))`: everything before the
last slash; when there is no slash, `find_last_of` yields `npos` and `substr`
returns the whole string. -/
def directoryOf (filename : String) : String :=
  let cs := filename.toList
  if '/' ∈ cs then
    String.mk ((cs.reverse.dropWhile (fun c => c ≠ '/')).drop 1).reverse
  else filename

/-- The first whitespace-delimited token of a line (the `prefix` extraction of
`ObjLoader::load`); a fresh `std::string` stays empty when the sentry fails. -/
def firstTok (line : String) : String :=
  ((extractString ⟨line.toList, false⟩).1).getD ""

/-- The second whitespace-delimited token of a line, `none` when the
extraction leaves the target untouched. -/
def secondTokOpt (line : String) : Option String :=
  (extractString (extractString ⟨line.toList, false⟩).2).1

/-- The mutable state of one `ObjLoader::load` call: the four growing pools,
the `mtlFilename` / `textureName` locals declared before the line loop, and
the threaded process-global `gTextureName`. -/
structure LoadState where
  vertices : List Vertex
  textures : List TextureCoords
  normals : List Normal
  faces : List Face
  mtlFilename : String
  textureName : String
  gTextureName : String
deriving DecidableEq, Repr

/-- The state at entry of `load`: empty pools, empty locals, and whatever the
process-global `gTextureName` currently holds. -/
def LoadState.init (g0 : String) : LoadState :=
  { vertices := [], textures := [], normals := [], faces := [],
    mtlFilename := "", textureName := "", gTextureName := g0 }

/-- The inner `while (std::getline(mtlFile, mtlLine))` loop of the `mtllib`
branch: scan for the first line whose leading token is `map_Kd`, record
`directory + "/" + textureName` in the global, and `break`. -/
def scanMtl (directory : String) (st : LoadState) : List String → LoadState
  | [] => st
  | l :: rest =>
    if firstTok l = "map_Kd" then
      let st1 :=
        match secondTokOpt l with
        | some t => { st with textureName := t }
        | none => st
      { st1 with gTextureName := directory ++ "/" ++ st1.textureName }
    else scanMtl directory st rest

/-- One iteration of the `while (std::getline(file, line))` loop of
`ObjLoader::load`: extract the leading token (`firstTok line`) and dispatch,
the rest of the stream feeding the chosen branch. -/
def processLine (fs : FS) (directory : String) (st : LoadState) (line : String) :
    LoadState :=
  if firstTok line = "v" then
    { st with vertices :=
        st.vertices ++ [parseVertexLine (extractString ⟨line.toList, false⟩).2] }
  else if firstTok line = "vt" then
    { st with textures :=
        st.textures ++ [parseVtLine (extractString ⟨line.toList, false⟩).2] }
  else if firstTok line = "vn" then
    { st with normals :=
        st.normals ++ [parseVnLine (extractString ⟨line.toList, false⟩).2] }
  else if firstTok line = "f" then
    { st with faces :=
        st.faces ++ [parseFaceLine (extractString ⟨line.toList, false⟩).2] }
  else if firstTok line = "mtllib" then
    let st1 :=
      match secondTokOpt line with
      | some m => { st with mtlFilename := m }
      | none => st
    match fs (directory ++ "/" ++ st1.mtlFilename) with
    | none => st1
    | some mtlLines => scanMtl directory st1 mtlLines
  else st

/-- `ObjLoader::load`: derive the directory, read the file line by line (a
file that fails to open yields no lines), folding `processLine` over them. -/
def load (fs : FS) (filename : String) (g0 : String) : LoadState :=
  let directory := directoryOf filename
  let ls := (fs filename).getD []
  ls.foldl (processLine fs directory) (LoadState.init g0)

/-- The `ObjLoader` object: pools, face list, the `textureName` member and the
`modelType` member. -/
structure ObjLoader where
  vertices : List Vertex
  textures : List TextureCoords
  normals : List Normal
  faces : List Face
  textureName : String
  modelType : Int
deriving DecidableEq, Repr

/-- `ObjLoader::ObjLoader(filename, type)`: run `load`, then
`textureName = gTextureName; modelType = type;`.  Returns the object together
with the process-global `gTextureName` after the call. -/
def ObjLoader.construct (fs : FS) (filename : String) (type : Int) (g0 : String) :
    ObjLoader × String :=
  let r := load fs filename g0
  ({ vertices := r.vertices, textures := r.textures, normals := r.normals,
     faces := r.faces, textureName := r.gTextureName, modelType := type },
   r.gTextureName)

/-- `std::vector<T>::operator[]` with an `int` index.  A negative,
out-of-range or indeterminate index is an out-of-bounds access (undefined
behaviour), modelled as `none`. -/
def vecAt {α : Type} (xs : List α) (i : Option Int) : Option α :=
  match i with
  | none => none
  | some k => if k < 0 then none else xs.get? k.toNat

/-- The body of the corner loop of `ObjLoader::getTriangles`: dereference the
three pools at one corner's indices. -/
def resolveCorner (m : ObjLoader) (cv ct cn : Option Int) :
    Option (Vertex × Normal × TextureCoords) :=
  match vecAt m.vertices cv, vecAt m.normals cn, vecAt m.textures ct with
  | some pv, some pn, some pt => some (pv, pn, pt)
  | _, _, _ => none

/-- Resolve one `Face` to a `Triangle`, corner order preserved; `none` when
any pool access is out of bounds or an index slot is indeterminate. -/
def resolveFace (m : ObjLoader) (f : Face) : Option Triangle :=
  match resolveCorner m f.vertexIndices.1 f.textureIndices.1 f.normalIndices.1,
        resolveCorner m f.vertexIndices.2.1 f.textureIndices.2.1 f.normalIndices.2.1,
        resolveCorner m f.vertexIndices.2.2 f.textureIndices.2.2 f.normalIndices.2.2 with
  | some a, some b, some c =>
    some { vertices := (a.1, b.1, c.1),
           normals := (a.2.1, b.2.1, c.2.1),
           textures := (a.2.2, b.2.2, c.2.2) }
  | _, _, _ => none

/-- The face loop of `ObjLoader::getTriangles`, one triangle per face in face
order. -/
def assembleFaces (m : ObjLoader) : List Face → Option (List Triangle)
  | [] => some []
  | f :: rest =>
    match resolveFace m f, assembleFaces m rest with
    | some t, some ts => some (t :: ts)
    | _, _ => none

/-- `ObjLoader::getTriangles`. -/
def getTriangles (m : ObjLoader) : Option (List Triangle) :=
  assembleFaces m m.faces

/-- Reversal of a face's corner order (first and third corner swapped). -/
def reverseFace (f : Face) : Face :=
  { vertexIndices := (f.vertexIndices.2.2, f.vertexIndices.2.1, f.vertexIndices.1),
    textureIndices := (f.textureIndices.2.2, f.textureIndices.2.1, f.textureIndices.1),
    normalIndices := (f.normalIndices.2.2, f.normalIndices.2.1, f.normalIndices.1) }

/-- Reversal of a triangle's corner order. -/
def reverseTriangle (t : Triangle) : Triangle :=
  { vertices := (t.vertices.2.2, t.vertices.2.1, t.vertices.1),
    normals := (t.normals.2.2, t.normals.2.1, t.normals.1),
    textures := (t.textures.2.2, t.textures.2.1, t.textures.1) }

/-! ### Concrete inputs used to evaluate the model -/

/-- Three geometry files whose single face has an out-of-range position,
texture, or normal index (pool sizes 3 / 1 / 1). -/
def oobFS : FS := fun p =>
  if p = "pos.obj" then
    some ["v 0 0 0", "v 0 0 1", "v 0 1 0", "vt 0 0", "vn 0 0 1",
          "f 99/1/1 99/1/1 99/1/1"]
  else if p = "tex.obj" then
    some ["v 0 0 0", "v 0 0 1", "v 0 1 0", "vt 0 0", "vn 0 0 1",
          "f 1/99/1 2/99/1 3/99/1"]
  else if p = "norm.obj" then
    some ["v 0 0 0", "v 0 0 1", "v 0 1 0", "vt 0 0", "vn 0 0 1",
          "f 1/1/99 2/1/99 3/1/99"]
  else none

/-- The Model parsed from the position-out-of-range file. -/
def oobPosModel : ObjLoader := (ObjLoader.construct oobFS "pos.obj" 0 "").1

/-- The Model parsed from the texture-out-of-range file. -/
def oobTexModel : ObjLoader := (ObjLoader.construct oobFS "tex.obj" 0 "").1

/-- The Model parsed from the normal-out-of-range file. -/
def oobNormModel : ObjLoader := (ObjLoader.construct oobFS "norm.obj" 0 "").1

/-- A geometry file exercising the four corner forms of the `f` directive. -/
def formsFS : FS := fun p =>
  if p = "forms.obj" then
    some ["v 0 0 0", "v 0 0 1", "v 0 1 0", "vt 0 0", "vn 0 0 1",
          "f 1 2 3", "f 1/1 2/2 3/3", "f 1//1 2//2 3//3", "f 1/1/1 2/2/2 3/3/3"]
  else none

/-- The Model parsed from the four-forms file. -/
def formsModel : ObjLoader := (ObjLoader.construct formsFS "forms.obj" 0 "").1

/-- A geometry file with a `v` line holding only two fields and a `vn` line
whose first field is not numeric. -/
def malformedFS : FS := fun p =>
  if p = "bad.obj" then some ["v 1 2", "vn x 1 2"] else none

/-- The load state after parsing the malformed file. -/
def malformedState : LoadState := load malformedFS "bad.obj" ""

/-- Two geometry files: the first resolves a texture through its material
library, the second has no `mtllib` directive at all. -/
def leakFS : FS := fun p =>
  if p = "a/geo.obj" then some ["mtllib m.mtl"]
  else if p = "a/m.mtl" then some ["map_Kd wood.png"]
  else if p = "b/geo.obj" then some ["v 0 0 0"]
  else none

/-- First parse of the process: the file with a material library. -/
def leakFirst : ObjLoader × String := ObjLoader.construct leakFS "a/geo.obj" 0 ""

/-- Second parse of the same process, global state carried over. -/
def leakSecond : ObjLoader × String :=
  ObjLoader.construct leakFS "b/geo.obj" 0 leakFirst.2

/-- The same second file parsed alone, in a fresh process. -/
def leakAlone : ObjLoader × String := ObjLoader.construct leakFS "b/geo.obj" 0 ""

/-- The spec's material-resolution example: `assets/cube.obj` referencing
`m.mtl`, whose first `map_Kd` names `wood.png` (a second one names a decoy). -/
def mtlFS : FS := fun p =>
  if p = "assets/cube.obj" then some ["mtllib m.mtl"]
  else if p = "assets/m.mtl" then
    some ["newmtl a", "map_Kd wood.png", "map_Kd decoy.png"]
  else none

/-- A geometry file whose `mtllib` names a file that does not exist. -/
def noMtlFS : FS := fun p =>
  if p = "c.obj" then some ["v 0 0 0", "mtllib m.mtl"] else none

/-- A well-formed two-face file whose second face lists the first face's
corners in reverse order. -/
def windingFS : FS := fun p =>
  if p = "w.obj" then
    some ["v 1 0 0", "v 0 1 0", "v 0 0 1", "vt 0 0", "vt 1 0", "vt 1 1",
          "vn 0 0 1", "vn 0 1 0", "vn 1 0 0",
          "f 1/1/1 2/2/2 3/3/3", "f 3/3/3 2/2/2 1/1/1"]
  else none

/-- The Model parsed from the winding file. -/
def windingModel : ObjLoader := (ObjLoader.construct windingFS "w.obj" 0 "").1

/-- The triangle list the winding Model assembles to. -/
def windingTris : List Triangle := (getTriangles windingModel).getD []

/-- The first face of the winding Model, written out. -/
def windingFace : Face :=
  { vertexIndices := (some 0, some 1, some 2),
    textureIndices := (some 0, some 1, some 2),
    normalIndices := (some 0, some 1, some 2) }

/-- A file system, parameterised by the geometry file's name, that serves a
`mtllib m.mtl` geometry file and a `map_Kd wood.png` material file located
under `<filename>/m.mtl`. -/
def bareFS (filename : String) : FS := fun p =>
  if p = filename then some ["mtllib m.mtl"]
  else if p = filename ++ "/m.mtl" then some ["map_Kd wood.png"]
  else none

/-! ### Helper lemmas -/

/-- A material-file scan that never meets a `map_Kd` line changes nothing. -/
theorem scanMtl_eq_of_no_kd (d : String) (mls : List String) :
    ∀ st : LoadState, (∀ l ∈ mls, firstTok l ≠ "map_Kd") →
      scanMtl d st mls = st := by
  induction mls with
  | nil => intro st _; rfl
  | cons l rest ih =>
    intro st h
    have hl : firstTok l ≠ "map_Kd" := h l (by simp)
    simp only [scanMtl, if_neg hl]
    exact ih st (fun l2 h2 => h l2 (by simp [h2]))

/-- The material-file scan never touches the four pools. -/
theorem scanMtl_pools (d : String) (mls : List String) :
    ∀ st : LoadState,
      (scanMtl d st mls).vertices = st.vertices
      ∧ (scanMtl d st mls).textures = st.textures
      ∧ (scanMtl d st mls).normals = st.normals
      ∧ (scanMtl d st mls).faces = st.faces := by
  induction mls with
  | nil => intro st; exact ⟨rfl, rfl, rfl, rfl⟩
  | cons l rest ih =>
    intro st
    by_cases hl : firstTok l = "map_Kd"
    · simp only [scanMtl, if_pos hl]
      cases secondTokOpt l <;> exact ⟨rfl, rfl, rfl, rfl⟩
    · simp only [scanMtl, if_neg hl]
      exact ih st

/-- A line whose leading token is none of `v`, `vt`, `vn`, `f` leaves all
pools and the face list unchanged. -/
theorem processLine_pools_other (fs : FS) (dir : String) (st : LoadState)
    (line : String) (h : firstTok line ∉ (["v", "vt", "vn", "f"] : List String)) :
    (processLine fs dir st line).vertices = st.vertices
    ∧ (processLine fs dir st line).textures = st.textures
    ∧ (processLine fs dir st line).normals = st.normals
    ∧ (processLine fs dir st line).faces = st.faces := by
  have h1 : firstTok line ≠ "v" := fun he => h (by simp [he])
  have h2 : firstTok line ≠ "vt" := fun he => h (by simp [he])
  have h3 : firstTok line ≠ "vn" := fun he => h (by simp [he])
  have h4 : firstTok line ≠ "f" := fun he => h (by simp [he])
  simp only [processLine, if_neg h1, if_neg h2, if_neg h3, if_neg h4]
  by_cases h5 : firstTok line = "mtllib"
  · rw [if_pos h5]
    cases hm : secondTokOpt line with
    | none =>
      cases hf : fs (dir ++ "/" ++ st.mtlFilename) with
      | none => exact ⟨rfl, rfl, rfl, rfl⟩
      | some mls => exact scanMtl_pools dir mls st
    | some m =>
      cases hf : fs (dir ++ "/" ++ m) with
      | none => exact ⟨rfl, rfl, rfl, rfl⟩
      | some mls => exact scanMtl_pools dir mls _
  · rw [if_neg h5]
    exact ⟨rfl, rfl, rfl, rfl⟩

/-- Effect of one line on the four pool sizes: the pool named by the leading
token grows by one, the others are untouched. -/
theorem processLine_lengths (fs : FS) (dir : String) (st : LoadState)
    (line : String) :
    (processLine fs dir st line).vertices.length
      = st.vertices.length + (if firstTok line = "v" then 1 else 0)
    ∧ (processLine fs dir st line).textures.length
      = st.textures.length + (if firstTok line = "vt" then 1 else 0)
    ∧ (processLine fs dir st line).normals.length
      = st.normals.length + (if firstTok line = "vn" then 1 else 0)
    ∧ (processLine fs dir st line).faces.length
      = st.faces.length + (if firstTok line = "f" then 1 else 0) := by
  by_cases h1 : firstTok line = "v"
  · simp [processLine, h1]
  by_cases h2 : firstTok line = "vt"
  · simp [processLine, h1, h2]
  by_cases h3 : firstTok line = "vn"
  · simp [processLine, h1, h2, h3]
  by_cases h4 : firstTok line = "f"
  · simp [processLine, h1, h2, h3, h4]
  have ho := processLine_pools_other fs dir st line (by simp [h1, h2, h3, h4])
  rw [if_neg h1, if_neg h2, if_neg h3, if_neg h4,
      ho.1, ho.2.1, ho.2.2.1, ho.2.2.2]
  simp

/-- Folding the line loop adds, to each pool, one entry per line carrying the
corresponding leading token. -/
theorem foldl_pool_lengths (fs : FS) (dir : String) (ls : List String) :
    ∀ st : LoadState,
      (ls.foldl (processLine fs dir) st).vertices.length
        = st.vertices.length + ls.countP (fun l => firstTok l == "v")
      ∧ (ls.foldl (processLine fs dir) st).textures.length
        = st.textures.length + ls.countP (fun l => firstTok l == "vt")
      ∧ (ls.foldl (processLine fs dir) st).normals.length
        = st.normals.length + ls.countP (fun l => firstTok l == "vn")
      ∧ (ls.foldl (processLine fs dir) st).faces.length
        = st.faces.length + ls.countP (fun l => firstTok l == "f") := by
  induction ls with
  | nil => intro st; simp
  | cons l rest ih =>
    intro st
    obtain ⟨e1, e2, e3, e4⟩ := processLine_lengths fs dir st l
    obtain ⟨f1, f2, f3, f4⟩ := ih (processLine fs dir st l)
    refine ⟨?_, ?_, ?_, ?_⟩ <;>
      simp only [List.foldl_cons, List.countP_cons, f1, f2, f3, f4,
        e1, e2, e3, e4, beq_iff_eq] <;>
      split <;> omega

/-- If every `mtllib` line of the file names (with an explicit second token) a
material file that fails to open or has no `map_Kd` line, the line loop leaves
the global texture name untouched. -/
theorem foldl_gTextureName (fs : FS) (dir : String) (ls : List String) :
    ∀ st : LoadState,
      (∀ l ∈ ls, firstTok l = "mtllib" →
        ∃ m, secondTokOpt l = some m ∧
          ∀ mls, fs (dir ++ "/" ++ m) = some mls →
            ∀ l2 ∈ mls, firstTok l2 ≠ "map_Kd") →
      (ls.foldl (processLine fs dir) st).gTextureName = st.gTextureName := by
  induction ls with
  | nil => intro st _; rfl
  | cons l rest ih =>
    intro st h
    rw [List.foldl_cons, ih (processLine fs dir st l)
          (fun l2 h2 => h l2 (List.mem_cons_of_mem l h2))]
    by_cases h1 : firstTok l = "v"
    · simp [processLine, h1]
    by_cases h2 : firstTok l = "vt"
    · simp [processLine, h1, h2]
    by_cases h3 : firstTok l = "vn"
    · simp [processLine, h1, h2, h3]
    by_cases h4 : firstTok l = "f"
    · simp [processLine, h1, h2, h3, h4]
    by_cases h5 : firstTok l = "mtllib"
    · obtain ⟨m, hm, hbad⟩ := h l (by simp) h5
      simp only [processLine, if_neg h1, if_neg h2, if_neg h3, if_neg h4,
        if_pos h5, hm]
      cases hf : fs (dir ++ "/" ++ m) with
      | none => rfl
      | some mls =>
        show (scanMtl dir _ mls).gTextureName = st.gTextureName
        rw [scanMtl_eq_of_no_kd dir mls _ (hbad mls hf)]
    · simp [processLine, h1, h2, h3, h4, h5]

/-- The material scan stops at the first `map_Kd` line: everything after it is
irrelevant. -/
theorem scanMtl_stop (d : String) (pre : List String) :
    ∀ (st : LoadState) (rest : List String) (kd : String),
      firstTok kd = "map_Kd" →
      scanMtl d st (pre ++ kd :: rest) = scanMtl d st (pre ++ [kd]) := by
  induction pre with
  | nil =>
    intro st rest kd h
    simp only [List.nil_append, scanMtl, if_pos h]
  | cons l pre ih =>
    intro st rest kd h
    by_cases hl : firstTok l = "map_Kd"
    · simp only [List.cons_append, scanMtl, if_pos hl]
    · simp only [List.cons_append, scanMtl, if_neg hl]
      exact ih st rest kd h

/-- Characterisation of a successful assembly run: one triangle per face, in
face order, each the resolution of its face. -/
theorem assembleFaces_get (m : ObjLoader) :
    ∀ (l : List Face) (ts : List Triangle), assembleFaces m l = some ts →
      ts.length = l.length
      ∧ ∀ i : Nat, ts.get? i = (l.get? i).bind (resolveFace m) := by
  intro l
  induction l with
  | nil =>
    intro ts h
    simp only [assembleFaces, Option.some.injEq] at h
    subst h
    exact ⟨rfl, fun i => by simp⟩
  | cons f l ih =>
    intro ts h
    simp only [assembleFaces] at h
    cases hf : resolveFace m f with
    | none => rw [hf] at h; exact absurd h (by simp)
    | some t0 =>
      cases ha : assembleFaces m l with
      | none => rw [hf, ha] at h; exact absurd h (by simp)
      | some ts0 =>
        rw [hf, ha] at h
        simp only [Option.some.injEq] at h
        subst h
        obtain ⟨hlen, hget⟩ := ih ts0 ha
        refine ⟨by simp [hlen], fun i => ?_⟩
        cases i with
        | zero => simp [hf]
        | succ j => simpa using hget j

/-- Resolving a corner-reversed face yields the corner-reversed triangle. -/
theorem resolveFace_reverse (m : ObjLoader) (f : Face) :
    resolveFace m (reverseFace f) = (resolveFace m f).map reverseTriangle := by
  simp only [resolveFace, reverseFace]
  cases resolveCorner m f.vertexIndices.1 f.textureIndices.1 f.normalIndices.1 <;>
    cases resolveCorner m f.vertexIndices.2.1 f.textureIndices.2.1
      f.normalIndices.2.1 <;>
    cases resolveCorner m f.vertexIndices.2.2 f.textureIndices.2.2
      f.normalIndices.2.2 <;>
    simp [reverseTriangle]

/-- `getTriangles` depends only on the pools and the face list, never on
`textureName` or `modelType`. -/
theorem getTriangles_ext (m m2 : ObjLoader) (hv : m.vertices = m2.vertices)
    (ht : m.textures = m2.textures) (hn : m.normals = m2.normals)
    (hf : m.faces = m2.faces) : getTriangles m = getTriangles m2 := by
  have hr : ∀ f, resolveFace m f = resolveFace m2 f := by
    intro f
    simp [resolveFace, resolveCorner, hv, ht, hn]
  have ha : ∀ l, assembleFaces m l = assembleFaces m2 l := by
    intro l
    induction l with
    | nil => rfl
    | cons f l ih => simp [assembleFaces, hr, ih]
  simp [getTriangles, hf, ha]

/-! ### Claims -/

/-- C1: a face whose position (or texture, or normal) index is out of range
after 0-basing does not produce a structured `AddressingError` with a face and
corner index, because `getTriangles` performs no range check at all: it
indexes the pools with `vector::operator[]`, an out-of-bounds access
(undefined behaviour, `none` in this embedding).  At the spec's own input —
position index 99 against a position pool of size 3 — the parsed face holds
index 98 and assembly performs the out-of-bounds access; likewise for
out-of-range texture and normal indices. -/
theorem claim_C1_unchecked_oob_access :
    oobPosModel.vertices.length = 3
    ∧ oobPosModel.faces =
        [{ vertexIndices := (some 98, some 98, some 98),
           textureIndices := (some 0, some 0, some 0),
           normalIndices := (some 0, some 0, some 0) }]
    ∧ getTriangles oobPosModel = none
    ∧ getTriangles oobTexModel = none
    ∧ getTriangles oobNormModel = none := by decide

/-- C2: parsing is not isolated.  The texture path discovered during the
first parse (through the process-global `gTextureName`, which `load` never
resets) leaks into a later Model whose own file has no `mtllib` at all: the
second Model's texture path equals the first Model's, while the same file
parsed in a fresh process yields the empty path. -/
theorem claim_C2_global_texture_leak :
    leakFirst.1.textureName = "a/wood.png"
    ∧ leakAlone.1.textureName = ""
    ∧ leakSecond.1.textureName = "a/wood.png"
    ∧ leakSecond.1.textureName ≠ leakAlone.1.textureName := by decide

/-- C3: the four corner forms all parse to position indices {0,1,2}, but for
`f 1 2 3` the texture and normal slots are never written — the source reads
and decrements uninitialised array entries (undefined behaviour, `none` in
this embedding) rather than recording an absence sentinel — and assembling
such a face indexes the pools with those indeterminate values (again
undefined behaviour, `none`), producing no `AddressingError`. -/
theorem claim_C3_missing_slots_indeterminate :
    formsModel.faces.map Face.vertexIndices =
      [(some 0, some 1, some 2), (some 0, some 1, some 2),
       (some 0, some 1, some 2), (some 0, some 1, some 2)]
    ∧ formsModel.faces.get? 0 =
        some { vertexIndices := (some 0, some 1, some 2),
               textureIndices := (none, none, none),
               normalIndices := (none, none, none) }
    ∧ resolveFace formsModel
        { vertexIndices := (some 0, some 1, some 2),
          textureIndices := (none, none, none),
          normalIndices := (none, none, none) } = none
    ∧ getTriangles formsModel = none := by decide

/-- C4: from the initial process state (the global texture name starts as the
empty string), a geometry file with no `mtllib` directive, or whose `mtllib`
directives name material files that cannot be opened or contain no `map_Kd`
line, parses to a Model whose texture path is the empty string. -/
theorem claim_C4_missing_material_nonfatal (fs : FS) (filename : String)
    (t : Int)
    (h : ∀ l ∈ (fs filename).getD [], firstTok l = "mtllib" →
      ∃ m, secondTokOpt l = some m ∧
        ∀ mls, fs (directoryOf filename ++ "/" ++ m) = some mls →
          ∀ l2 ∈ mls, firstTok l2 ≠ "map_Kd") :
    (ObjLoader.construct fs filename t "").1.textureName = "" := by
  show ((((fs filename).getD []).foldl
    (processLine fs (directoryOf filename)) (LoadState.init "")).gTextureName) = ""
  rw [foldl_gTextureName fs (directoryOf filename) ((fs filename).getD [])
    (LoadState.init "") h]
  rfl

/-- C4 witness: a file whose `mtllib` names a material file that does not
exist parses with an empty texture path. -/
theorem claim_C4_witness :
    (ObjLoader.construct noMtlFS "c.obj" 0 "").1.textureName = "" := by
  apply claim_C4_missing_material_nonfatal
  intro l hl hml
  rw [show (noMtlFS "c.obj").getD [] = ["v 0 0 0", "mtllib m.mtl"]
      from by decide] at hl
  simp only [List.mem_cons, List.not_mem_nil, or_false] at hl
  rcases hl with h1 | h1
  · subst h1; exact absurd hml (by decide)
  · subst h1
    refine ⟨"m.mtl", by decide, fun mls hm => ?_⟩
    rw [show noMtlFS (directoryOf "c.obj" ++ "/" ++ "m.mtl") = none
        from by decide] at hm
    exact Option.noConfusion hm

/-- C5: with the geometry file at `assets/cube.obj` and `m.mtl` containing a
first `map_Kd wood.png` (and a later decoy), the resolved texture path is
exactly `assets/wood.png`; and in general the material scan stops at the
first `map_Kd` line — the lines after it are irrelevant. -/
theorem claim_C5_material_resolution :
    (ObjLoader.construct mtlFS "assets/cube.obj" 0 "").1.textureName
      = "assets/wood.png"
    ∧ ∀ (d : String) (st : LoadState) (pre rest : List String) (kd : String),
        firstTok kd = "map_Kd" →
        scanMtl d st (pre ++ kd :: rest) = scanMtl d st (pre ++ [kd]) :=
  ⟨by decide, fun d st pre rest kd h => scanMtl_stop d pre st rest kd h⟩

/-- C5 witness: the stop property applied to the concrete material file. -/
theorem claim_C5_witness :
    scanMtl "assets" (LoadState.init "")
      (["newmtl a"] ++ "map_Kd wood.png" :: ["map_Kd decoy.png"])
      = scanMtl "assets" (LoadState.init "") (["newmtl a"] ++ ["map_Kd wood.png"]) :=
  claim_C5_material_resolution.2 "assets" (LoadState.init "") ["newmtl a"]
    ["map_Kd decoy.png"] "map_Kd wood.png" (by decide)

/-- C6 counterexample: a `v` line with only two fields and a `vn` line with a
non-numeric field are not rejected — no error value exists in the parser —
and each still appends a pool entry: the short `v` line appends a vertex
whose `z` was never written, the bad `vn` line appends a normal whose first
field was set to 0 by the failed conversion and whose other fields were never
written. -/
theorem claim_C6_counterexample :
    malformedState.vertices =
      [{ x := some 1, y := some 2, z := none, r := none, g := none, b := none,
         nx := none, ny := none, nz := none }]
    ∧ malformedState.normals = [{ nx := some 0, ny := none, nz := none }] := by
  decide

/-- C6 (amended): every line whose leading token is `v`, `vt` or `vn` —
well-formed or not — appends exactly one entry to the corresponding pool and
raises no error; fields whose numeric conversion fails are written as 0 and
fields never reached stay unwritten, as recorded by the parse functions. -/
theorem claim_C6_malformed_lines_append (fs : FS) (dir : String)
    (st : LoadState) (line : String) :
    (firstTok line = "v" →
      processLine fs dir st line
        = { st with vertices :=
              st.vertices ++ [parseVertexLine (extractString ⟨line.toList, false⟩).2] })
    ∧ (firstTok line = "vt" →
      processLine fs dir st line
        = { st with textures :=
              st.textures ++ [parseVtLine (extractString ⟨line.toList, false⟩).2] })
    ∧ (firstTok line = "vn" →
      processLine fs dir st line
        = { st with normals :=
              st.normals ++ [parseVnLine (extractString ⟨line.toList, false⟩).2] }) := by
  refine ⟨fun h => ?_, fun h => ?_, fun h => ?_⟩ <;>
    simp [processLine, h]

/-- C6 witness: the amended statement applied to the malformed `v` line. -/
theorem claim_C6_witness :
    processLine malformedFS "bad.obj" (LoadState.init "") "v 1 2"
      = { LoadState.init "" with vertices :=
            (LoadState.init "").vertices
              ++ [parseVertexLine (extractString ⟨("v 1 2").toList, false⟩).2] } :=
  (claim_C6_malformed_lines_append malformedFS "bad.obj" (LoadState.init "")
    "v 1 2").1 (by decide)

/-- C7: a parse yields a position pool of size equal to the number of lines
with leading token `v`, and likewise for `vt`, `vn` and `f`; a line with any
other leading token leaves all pools and the face list unchanged. -/
theorem claim_C7_pool_sizes (fs : FS) (filename g0 : String) (t : Int) :
    (ObjLoader.construct fs filename t g0).1.vertices.length
      = ((fs filename).getD []).countP (fun l => firstTok l == "v")
    ∧ (ObjLoader.construct fs filename t g0).1.textures.length
      = ((fs filename).getD []).countP (fun l => firstTok l == "vt")
    ∧ (ObjLoader.construct fs filename t g0).1.normals.length
      = ((fs filename).getD []).countP (fun l => firstTok l == "vn")
    ∧ (ObjLoader.construct fs filename t g0).1.faces.length
      = ((fs filename).getD []).countP (fun l => firstTok l == "f")
    ∧ ∀ (dir : String) (st : LoadState) (line : String),
        firstTok line ∉ (["v", "vt", "vn", "f"] : List String) →
        (processLine fs dir st line).vertices = st.vertices
        ∧ (processLine fs dir st line).textures = st.textures
        ∧ (processLine fs dir st line).normals = st.normals
        ∧ (processLine fs dir st line).faces = st.faces := by
  obtain ⟨e1, e2, e3, e4⟩ := foldl_pool_lengths fs (directoryOf filename)
    ((fs filename).getD []) (LoadState.init g0)
  exact ⟨by simpa [LoadState.init] using e1, by simpa [LoadState.init] using e2,
    by simpa [LoadState.init] using e3, by simpa [LoadState.init] using e4,
    fun dir st line h => processLine_pools_other fs dir st line h⟩

/-- C7 witness: a comment line leaves everything unchanged, and the counts on
a concrete file. -/
theorem claim_C7_witness :
    (processLine formsFS "d" (LoadState.init "") "# comment").vertices
      = (LoadState.init "").vertices
    ∧ (processLine formsFS "d" (LoadState.init "") "# comment").textures
      = (LoadState.init "").textures
    ∧ (processLine formsFS "d" (LoadState.init "") "# comment").normals
      = (LoadState.init "").normals
    ∧ (processLine formsFS "d" (LoadState.init "") "# comment").faces
      = (LoadState.init "").faces :=
  (claim_C7_pool_sizes formsFS "forms.obj" "" 0).2.2.2.2 "d" (LoadState.init "")
    "# comment" (by decide)

/-- C8: assembly preserves face order and corner order — a successful
`getTriangles` run yields exactly one triangle per face, in face order, each
listing its face's resolved corners in declared order; and resolving a
corner-reversed face yields exactly the corner-reversed triangle. -/
theorem claim_C8_order_and_winding :
    (∀ (m : ObjLoader) (ts : List Triangle), getTriangles m = some ts →
      ts.length = m.faces.length
      ∧ ∀ i : Nat, ts.get? i = (m.faces.get? i).bind (resolveFace m))
    ∧ ∀ (m : ObjLoader) (f : Face),
        resolveFace m (reverseFace f) = (resolveFace m f).map reverseTriangle :=
  ⟨fun m ts h => assembleFaces_get m m.faces ts h, resolveFace_reverse⟩

/-- C8 witness: the two-face winding model (second face is the first one
reversed) assembles to a triangle list of the faces' length, in order, and
the reversal law holds at its first face. -/
theorem claim_C8_witness :
    (windingTris.length = windingModel.faces.length
      ∧ ∀ i : Nat, windingTris.get? i
          = (windingModel.faces.get? i).bind (resolveFace windingModel))
    ∧ resolveFace windingModel (reverseFace windingFace)
        = (resolveFace windingModel windingFace).map reverseTriangle :=
  ⟨claim_C8_order_and_winding.1 windingModel windingTris (by decide),
   claim_C8_order_and_winding.2 windingModel windingFace⟩

/-- C9: the classification tag is stored verbatim in `modelType` and has no
influence on anything else: two loaders built from the same file with
different tags agree on pools, faces, texture path, assembly output and the
resulting global state. -/
theorem claim_C9_type_tag_inert (fs : FS) (filename : String) (t t2 : Int)
    (g0 : String) :
    (ObjLoader.construct fs filename t g0).1.modelType = t
    ∧ (ObjLoader.construct fs filename t g0).1.vertices
      = (ObjLoader.construct fs filename t2 g0).1.vertices
    ∧ (ObjLoader.construct fs filename t g0).1.textures
      = (ObjLoader.construct fs filename t2 g0).1.textures
    ∧ (ObjLoader.construct fs filename t g0).1.normals
      = (ObjLoader.construct fs filename t2 g0).1.normals
    ∧ (ObjLoader.construct fs filename t g0).1.faces
      = (ObjLoader.construct fs filename t2 g0).1.faces
    ∧ (ObjLoader.construct fs filename t g0).1.textureName
      = (ObjLoader.construct fs filename t2 g0).1.textureName
    ∧ getTriangles (ObjLoader.construct fs filename t g0).1
      = getTriangles (ObjLoader.construct fs filename t2 g0).1
    ∧ (ObjLoader.construct fs filename t g0).2
      = (ObjLoader.construct fs filename t2 g0).2 :=
  ⟨rfl, rfl, rfl, rfl, rfl, rfl, getTriangles_ext _ _ rfl rfl rfl rfl, rfl⟩

/-- C10: for a geometry filename containing no slash, the derived directory
is the whole filename, so the material library is opened at
`<filename>/<mtlname>` and the discovered texture is recorded as
`<filename>/<texname>`. -/
theorem claim_C10_bare_filename_anchor (filename : String) (t : Int)
    (h : ∀ c ∈ filename.toList, c ≠ '/') :
    directoryOf filename = filename
    ∧ (ObjLoader.construct (bareFS filename) filename t "").1.textureName
        = filename ++ "/wood.png" := by
  have hmem : '/' ∉ filename.toList := fun hc => h '/' hc rfl
  have hdir : directoryOf filename = filename := by
    simp only [directoryOf, if_neg hmem]
  refine ⟨hdir, ?_⟩
  have hne : ¬(filename ++ "/m.mtl" = filename) := by
    intro he
    have hlen := congrArg String.length he
    rw [String.length_append] at hlen
    rw [show ("/m.mtl" : String).length = 6 from rfl] at hlen
    omega
  have hload : load (bareFS filename) filename ""
      = processLine (bareFS filename) filename (LoadState.init "") "mtllib m.mtl" := by
    simp only [load, hdir]
    rw [show bareFS filename filename = some ["mtllib m.mtl"] from by
      simp [bareFS]]
    rfl
  have hstep : processLine (bareFS filename) filename (LoadState.init "")
      "mtllib m.mtl"
      = match bareFS filename (filename ++ "/" ++ "m.mtl") with
        | none => { LoadState.init "" with mtlFilename := "m.mtl" }
        | some mls =>
          scanMtl filename { LoadState.init "" with mtlFilename := "m.mtl" } mls := by
    simp only [processLine]
    rw [if_neg (by decide), if_neg (by decide), if_neg (by decide),
      if_neg (by decide), if_pos (by decide)]
    rw [show secondTokOpt "mtllib m.mtl" = some "m.mtl" from by decide]
  have hkey : bareFS filename (filename ++ "/" ++ "m.mtl")
      = some ["map_Kd wood.png"] := by
    have hcat : filename ++ "/" ++ "m.mtl" = filename ++ "/m.mtl" := by
      rw [String.append_assoc]
      exact congrArg (fun s => filename ++ s)
        (show "/" ++ "m.mtl" = "/m.mtl" from by decide)
    rw [hcat]
    simp only [bareFS, if_neg hne, eq_self_iff_true, if_true]
  have hscan : scanMtl filename { LoadState.init "" with mtlFilename := "m.mtl" }
      ["map_Kd wood.png"]
      = { LoadState.init "" with
            mtlFilename := "m.mtl"
            textureName := "wood.png"
            gTextureName := filename ++ "/" ++ "wood.png" } := by
    simp only [scanMtl]
    rw [if_pos (by decide)]
    rw [show secondTokOpt "map_Kd wood.png" = some "wood.png" from by decide]
  show (load (bareFS filename) filename "").gTextureName = filename ++ "/wood.png"
  rw [hload, hstep, hkey]
  show (scanMtl filename { LoadState.init "" with mtlFilename := "m.mtl" }
    ["map_Kd wood.png"]).gTextureName = filename ++ "/wood.png"
  rw [hscan]
  rw [String.append_assoc]
  exact congrArg (fun s => filename ++ s)
    (show "/" ++ "wood.png" = "/wood.png" from by decide)

/-- C10 witness: the property at the bare filename `cube.obj`. -/
theorem claim_C10_witness :
    directoryOf "cube.obj" = "cube.obj"
    ∧ (ObjLoader.construct (bareFS "cube.obj") "cube.obj" 0 "").1.textureName
        = "cube.obj" ++ "/wood.png" :=
  claim_C10_bare_filename_anchor "cube.obj" 0 (by decide)

end Dino
